import Mathlib

/-!
Verification of the date utilities in `src/core-js-dates-tasks.js` against
their specification.

The embedding works at day granularity over the proleptic Gregorian calendar
(the spec's glossary: "Calendar date: a day-granularity point in the Gregorian
calendar, independent of time-of-day or timezone"), in a UTC environment.
Calendar dates are triples `(year, month, day)` with `month` 1-based; the
serial day number counts days since 1970-01-01, matching the ECMAScript day
count.  `Int` division `/` and `%` in Lean are Euclidean, which for the
positive divisors used here coincides with the floor division the calendar
formulas require, and with the divisibility tests of the JavaScript source.
-/

/-- Embeds `isLeapYear` (src lines 341-350): divisible by 4, except centuries
unless divisible by 400.  The source reads the year from a `Date`; the model
takes the year directly. -/
def isLeapYear (year : Int) : Bool :=
  if year % 4 ≠ 0 then false
  else if year % 100 ≠ 0 then true
  else year % 400 = 0

/-- Number of days of a (1-based) month in the proleptic Gregorian calendar,
as used internally by ECMAScript `Date`. -/
def daysInMonth (year month : Int) : Int :=
  if month = 2 then (if isLeapYear year then 29 else 28)
  else if month = 4 ∨ month = 6 ∨ month = 9 ∨ month = 11 then 30
  else 31

/-- Serial day number of the calendar date `(year, month, day)`: days elapsed
since 1970-01-01 (negative before).  Standard civil-calendar formula with the
era/year-of-era decomposition; all divisions are by positive constants, so
Lean's Euclidean `/` is the floor division the formula needs. -/
def dayNumber (year month day : Int) : Int :=
  let y := if month ≤ 2 then year - 1 else year
  let era := y / 400
  let yoe := y - era * 400
  let mp := (month + 9) % 12
  let doy := (153 * mp + 2) / 5 + day - 1
  let doe := yoe * 365 + yoe / 4 - yoe / 100 + doy
  era * 146097 + doe - 719468

/-- Day of the week of a calendar date with JavaScript `Date.prototype.getDay`
numbering: 0 = Sunday, ..., 6 = Saturday.  1970-01-01 was a Thursday (4). -/
def dayOfWeek (year month day : Int) : Int :=
  (dayNumber year month day + 4) % 7

/-- A well-formed calendar date: month in 1..12 and day within the month. -/
def isValidDate (year month day : Int) : Prop :=
  1 ≤ month ∧ month ≤ 12 ∧ 1 ≤ day ∧ day ≤ daysInMonth year month

instance (year month day : Int) : Decidable (isValidDate year month day) := by
  unfold isValidDate; infer_instance

/-- The weekday-name table of `getDayName` (src lines 55-63), verbatim,
including the misspelled entry at index 3. -/
def days : List String :=
  ["Sunday", "Monday", "Tuesday", "Wensday", "Thursday", "Friday", "Saturday"]

/-- The correctly spelled English weekday names, for comparison with `days`
(the spec calls the deviation "a visible typographical defect"). -/
def englishDays : List String :=
  ["Sunday", "Monday", "Tuesday", "Wednesday", "Thursday", "Friday", "Saturday"]

/-- Embeds `getDayName` (src lines 54-65): indexes the `days` table with the
weekday of the parsed date. -/
def getDayName (year month day : Int) : String :=
  days.getD (dayOfWeek year month day).toNat ""

/-- Embeds `getCountDaysInMonth` (src lines 103-107).
`new Date(year, month + 1, 1)` applies the ECMAScript two-digit-year rule
(years 0..99 are taken as 1900+year) and normalises the 0-based month
`month + 1` by carrying overflow into the year; `setUTCDate(0)` then moves the
date to the last day of the preceding month, and `getUTCDate()` returns that
day of month, i.e. the length of that month (the environment is UTC, so the
local-time constructor and the UTC accessors agree). -/
def getCountDaysInMonth (month year : Int) : Int :=
  let y0 := if 0 ≤ year ∧ year ≤ 99 then 1900 + year else year
  let y1 := y0 + (month + 1) / 12
  let m0 := (month + 1) % 12
  if m0 = 0 then daysInMonth (y1 - 1) 12 else daysInMonth y1 m0

/-- UTC components of a parsed `Date`, as read by the `getUTC*` accessors in
`formatDate` (src lines 167-186): `month` is already 1-based (the source adds
1 to `getUTCMonth()`), `hours` in 0..23, `minutes` and `seconds` in 0..59. -/
structure JsDate where
  year : Nat
  month : Nat
  day : Nat
  hours : Nat
  minutes : Nat
  seconds : Nat

/-- The hour figure `formatDate` renders (src lines 173-176): hours above 12
are reduced by 12, hours up to and including 12 are kept as they are. -/
def hour12 (h : Nat) : Nat := if h > 12 then h - 12 else h

/-- The AM/PM marker of `formatDate` (src line 172): "PM" from hour 12
onwards, "AM" before. -/
def meridiem (h : Nat) : String := if h ≥ 12 then "PM" else "AM"

/-- Two-digit rendering of minutes and seconds (src lines 177-184): a leading
zero below 10. -/
def pad2 (n : Nat) : String := if n < 10 then "0" ++ toString n else toString n

/-- Embeds `formatDate` (src lines 167-186): renders
`M/D/YYYY, h:mm:ss AM|PM` from the UTC components of the date. -/
def formatDate (d : JsDate) : String :=
  toString d.month ++ "/" ++ toString d.day ++ "/" ++ toString d.year ++ ", " ++
    toString (hour12 d.hours) ++ ":" ++ pad2 d.minutes ++ ":" ++ pad2 d.seconds ++
    " " ++ meridiem d.hours

/-- Embeds `getNextFridayThe13th` (src lines 246-254) as a fuelled recursion:
set the day of month to 13 (`setDate(13)` keeps month and time of day); if
that day is a Friday and not before the given date (same month, so the
comparison is `13 ≥ d`), return it; otherwise advance one month
(`setMonth(getMonth() + 1)` on a day-13 date never overflows) and recurse on
the day-13 date.  The source recurses without a bound; the fuel makes the
recursion well-founded so that termination becomes the provable statement
that some finite fuel always suffices. -/
def getNextFridayThe13th : Nat → Int → Int → Int → Option (Int × Int × Int)
  | 0, _, _, _ => none
  | fuel + 1, y, m, d =>
    if dayOfWeek y m 13 = 5 ∧ d ≤ 13 then some (y, m, 13)
    else if m = 12 then getNextFridayThe13th fuel (y + 1) 1 13
    else getNextFridayThe13th fuel y (m + 1) 13

/-- Weekday of the 13th of the month with serial month index `t`
(month index `t = 12 * year + (month - 1)`). -/
def weekday13 (t : Int) : Int :=
  dayOfWeek (t / 12) (t % 12 + 1) 13

/-- A `Nat`-arithmetic computation of `weekday13` for month indices at least
12, used for the finite verification below: subtraction-free and with the
terms that vanish modulo 7 (the era and the `-719468` epoch shift) already
reduced, so that kernel evaluation is cheap. -/
def weekday13Nat (t : Nat) : Nat :=
  let y := t / 12
  let m := t % 12 + 1
  let y2 := if m ≤ 2 then y - 1 else y
  let yoe := y2 % 400
  let doy := (153 * ((m + 9) % 12) + 2) / 5 + 12
  (yoe + yoe / 4 + 6 * (yoe / 100) + doy + 3) % 7

/-- Embeds the exported `getWorkSchedule` (src lines 299-301): an
unimplemented stub whose whole body is `throw new Error('Not implemented')` —
it fails on every input before looking at its arguments.  The thrown error is
modelled as `Except.error` with the error's message. -/
def getWorkSchedule (period : String × String) (countWorkDays countOffDays : Int) :
    Except String (List String) :=
  Except.error "Not implemented"

/-- Splits a character list at every '-' separator (the accumulator holds the
current field reversed); structural-recursive counterpart of splitting a
string on "-". -/
def splitDash : List Char → List Char → List (List Char)
  | [], cur => [cur.reverse]
  | c :: rest, cur =>
    if c = '-' then cur.reverse :: splitDash rest []
    else splitDash rest (c :: cur)

/-- Numeric value of a nonempty all-digit character list, `none` otherwise. -/
def parseDigits (cs : List Char) : Option Nat :=
  if cs = [] then none
  else if cs.all Char.isDigit then
    some (cs.foldl (fun acc c => 10 * acc + (c.toNat - 48)) 0)
  else none

/-- Modelled from the spec: the exported `getWorkSchedule` is an unimplemented
stub, so the schedule generator's date intake is missing from the source; per
spec sections 4.1, 6 and 7 the period endpoints arrive as `DD-MM-YYYY` text
and a string that is not a well-formed calendar date is invalid.  Returns the
calendar date `(year, month, day)` or `none`. -/
def parseDMY (s : String) : Option (Int × Int × Int) :=
  match splitDash s.toList [] with
  | [ds, ms, ys] =>
    match parseDigits ds, parseDigits ms, parseDigits ys with
    | some d, some m, some y =>
      if isValidDate (y : Int) (m : Int) (d : Int) then
        some ((y : Int), (m : Int), (d : Int))
      else none
    | _, _, _ => none
  | _ => none

/-- Renders an `Int` with a leading zero below 10 (two-digit day and month
fields of the `DD-MM-YYYY` representation). -/
def pad2i (n : Int) : String := if n < 10 then "0" ++ toString n else toString n

/-- Renders a calendar date back into the `DD-MM-YYYY` exchange form used by
the spec's scenarios. -/
def formatDMY : Int × Int × Int → String
  | (y, m, d) => pad2i d ++ "-" ++ pad2i m ++ "-" ++ toString y

/-- Calendar date of a serial day number: the standard civil-from-days
formula, inverse of `dayNumber`; used to render schedule days as dates. -/
def civilFromDays (z0 : Int) : Int × Int × Int :=
  let z := z0 + 719468
  let era := z / 146097
  let doe := z - era * 146097
  let yoe := (doe - doe / 1460 + doe / 36524 - doe / 146096) / 365
  let y := yoe + era * 400
  let doy := doe - (365 * yoe + yoe / 4 - yoe / 100)
  let mp := (5 * doy + 2) / 153
  let d := doy - (153 * mp + 2) / 5 + 1
  let m := mp + (if mp < 10 then 3 else -9)
  (if m ≤ 2 then y + 1 else y, m, d)

/-- Modelled from the spec (section 4.1 Behavior): walk every calendar day
from start to end inclusive, with a cycle-position counter aligned to the
range start; day number `i` since the start is emitted exactly when
`i % (workLength + offLength) < workLength`.  Days are serial day numbers
(`dayNumber`); an empty walk when the end precedes the start. -/
def scheduleDays (s e : Int) (w o : Nat) : List Int :=
  ((List.range (e + 1 - s).toNat).filter (fun i => i % (w + o) < w)).map
    (fun (i : Nat) => s + (i : Int))

/-- Modelled from the spec: the exported `getWorkSchedule` is an unimplemented
stub (src lines 299-301), so the generator behavior specified in sections 4.1
and 7 is modelled here under the spec's contract name `generateSchedule`:
reject `workLength < 1`, `offLength < 0` or a malformed period endpoint with
`InvalidArgument`; otherwise enumerate the work days of the inclusive range
(empty when start exceeds end) and render them as `DD-MM-YYYY`. -/
def generateSchedule (period : String × String) (workLength offLength : Int) :
    Except String (List String) :=
  if workLength < 1 ∨ offLength < 0 then Except.error "InvalidArgument"
  else
    match parseDMY period.1, parseDMY period.2 with
    | some (ys, ms, ds), some (ye, me, de) =>
      Except.ok
        ((scheduleDays (dayNumber ys ms ds) (dayNumber ye me de)
            workLength.toNat offLength.toNat).map
          (fun n => formatDMY (civilFromDays n)))
    | _, _ => Except.error "InvalidArgument"

example : dayNumber 1970 1 1 = 0 := by decide
example : dayNumber 2024 1 1 = 19723 := by decide
example : dayOfWeek 2024 1 1 = 1 := by decide
example : dayOfWeek 1970 1 1 = 4 := by decide
example : getCountDaysInMonth 1 2024 = 29 := by decide
example : getCountDaysInMonth 2 2024 = 31 := by decide
example : getCountDaysInMonth 11 2023 = 31 := by decide
example : formatDate ⟨2024, 2, 1, 15, 0, 0⟩ = "2/1/2024, 3:00:00 PM" := by rfl
example : formatDate ⟨1999, 1, 5, 2, 20, 0⟩ = "1/5/1999, 2:20:00 AM" := by rfl
example : formatDate ⟨2010, 12, 15, 22, 59, 0⟩ = "12/15/2010, 10:59:00 PM" := by
  rfl
example : parseDMY "01-01-2024" = some (2024, 1, 1) := by rfl
example : parseDMY "31-02-2024" = none := by rfl
example : parseDMY "2024-01-01x" = none := by rfl
example : civilFromDays 0 = (1970, 1, 1) := by decide
example : civilFromDays 19723 = (2024, 1, 1) := by decide
example : civilFromDays 19735 = (2024, 1, 13) := by decide
example : getNextFridayThe13th 15 2024 1 13 = some (2024, 9, 13) := by rfl
example : getNextFridayThe13th 15 2023 2 1 = some (2023, 10, 13) := by rfl

/-- Helper for C9: the month-normalisation core of `getCountDaysInMonth`,
for months 1..11, equals the month after the requested one. -/
lemma countDays_core (y month : Int) (h1 : 1 ≤ month) (h2 : month ≤ 11) :
    (if (month + 1) % 12 = 0 then daysInMonth (y + (month + 1) / 12 - 1) 12
     else daysInMonth (y + (month + 1) / 12) ((month + 1) % 12)) =
      daysInMonth y (month + 1) := by
  interval_cases month <;> norm_num

/-- Shifting a date by a multiple of 400 years shifts its serial day number
by that multiple of 146097 days (the Gregorian 400-year cycle). -/
lemma dayNumber_add_400q (y m d q : Int) :
    dayNumber (y + 400 * q) m d = dayNumber y m d + 146097 * q := by
  unfold dayNumber
  dsimp only
  split <;> omega

/-- The weekday of the 13th is periodic in the month index with period
4800 months (400 years), since 146097 is divisible by 7. -/
lemma weekday13_shift (t q : Int) : weekday13 (t + 4800 * q) = weekday13 t := by
  unfold weekday13 dayOfWeek
  have h1 : (t + 4800 * q) / 12 = t / 12 + 400 * q := by omega
  have h2 : (t + 4800 * q) % 12 = t % 12 := by omega
  rw [h1, h2, dayNumber_add_400q]
  omega

/-- The cheap `Nat` computation agrees with `weekday13` on month indices at
least 12 (where the year-decrement for January and February cannot
underflow). -/
lemma weekday13Nat_eq (t : Nat) (ht : 12 ≤ t) :
    (weekday13Nat t : Int) = weekday13 (t : Int) := by
  unfold weekday13Nat weekday13 dayOfWeek dayNumber
  dsimp only
  split <;> split
  · push_cast
    have e0 : ((t / 12 - 1 : Nat) : Int) = (t : Int) / 12 - 1 := by omega
    rw [e0]
    have e2 : ((t : Int) / 12 - 1) % 400 / 4 =
        ((t : Int) / 12 - 1 - ((t : Int) / 12 - 1) / 400 * 400) / 4 := by omega
    have e3 : ((t : Int) / 12 - 1) % 400 / 100 =
        ((t : Int) / 12 - 1 - ((t : Int) / 12 - 1) / 400 * 400) / 100 := by omega
    rw [e2, e3]
    omega
  · omega
  · omega
  · push_cast
    have e2 : (t : Int) / 12 % 400 / 4 =
        ((t : Int) / 12 - (t : Int) / 12 / 400 * 400) / 4 := by omega
    have e3 : (t : Int) / 12 % 400 / 100 =
        ((t : Int) / 12 - (t : Int) / 12 / 400 * 400) / 100 := by omega
    rw [e2, e3]
    omega

/-- For a month in 1..12, the month-index form of the weekday of the 13th
agrees with `dayOfWeek` of the 13th of the month. -/
lemma weekday13_month (y m : Int) (h1 : 1 ≤ m) (h2 : m ≤ 12) :
    weekday13 (12 * y + m - 1) = dayOfWeek y m 13 := by
  unfold weekday13
  have e1 : (12 * y + m - 1) / 12 = y := by omega
  have e2 : (12 * y + m - 1) % 12 + 1 = m := by omega
  rw [e1, e2]

set_option maxHeartbeats 4000000 in
set_option maxRecDepth 100000 in
/-- Finite verification, months 36..835 of the 400-year cycle: every month is
followed by a Friday the 13th within the next 14 months. -/
lemma fri13_chunk0 : ∀ r : Nat, r < 800 →
    ∃ k : Nat, k < 14 ∧ weekday13Nat (36 + r + k + 1) = 5 := by decide

set_option maxHeartbeats 4000000 in
set_option maxRecDepth 100000 in
/-- Finite verification, months 836..1635. -/
lemma fri13_chunk1 : ∀ r : Nat, r < 800 →
    ∃ k : Nat, k < 14 ∧ weekday13Nat (836 + r + k + 1) = 5 := by decide

set_option maxHeartbeats 4000000 in
set_option maxRecDepth 100000 in
/-- Finite verification, months 1636..2435. -/
lemma fri13_chunk2 : ∀ r : Nat, r < 800 →
    ∃ k : Nat, k < 14 ∧ weekday13Nat (1636 + r + k + 1) = 5 := by decide

set_option maxHeartbeats 4000000 in
set_option maxRecDepth 100000 in
/-- Finite verification, months 2436..3235. -/
lemma fri13_chunk3 : ∀ r : Nat, r < 800 →
    ∃ k : Nat, k < 14 ∧ weekday13Nat (2436 + r + k + 1) = 5 := by decide

set_option maxHeartbeats 4000000 in
set_option maxRecDepth 100000 in
/-- Finite verification, months 3236..4035. -/
lemma fri13_chunk4 : ∀ r : Nat, r < 800 →
    ∃ k : Nat, k < 14 ∧ weekday13Nat (3236 + r + k + 1) = 5 := by decide

set_option maxHeartbeats 4000000 in
set_option maxRecDepth 100000 in
/-- Finite verification, months 4036..4835. -/
lemma fri13_chunk5 : ∀ r : Nat, r < 800 →
    ∃ k : Nat, k < 14 ∧ weekday13Nat (4036 + r + k + 1) = 5 := by decide

/-- One full 400-year cycle of months: every month is followed by a Friday
the 13th within the next 14 months. -/
lemma fri13_all : ∀ r : Nat, r < 4800 →
    ∃ k : Nat, k < 14 ∧ weekday13Nat (36 + r + k + 1) = 5 := by
  intro r hr
  rcases Nat.lt_or_ge r 800 with h | h
  · exact fri13_chunk0 r h
  rcases Nat.lt_or_ge r 1600 with h2 | h2
  · obtain ⟨k, hk, h5⟩ := fri13_chunk1 (r - 800) (by omega)
    refine ⟨k, hk, ?_⟩
    have e : 36 + r + k + 1 = 836 + (r - 800) + k + 1 := by omega
    rw [e]; exact h5
  rcases Nat.lt_or_ge r 2400 with h3 | h3
  · obtain ⟨k, hk, h5⟩ := fri13_chunk2 (r - 1600) (by omega)
    refine ⟨k, hk, ?_⟩
    have e : 36 + r + k + 1 = 1636 + (r - 1600) + k + 1 := by omega
    rw [e]; exact h5
  rcases Nat.lt_or_ge r 3200 with h4 | h4
  · obtain ⟨k, hk, h5⟩ := fri13_chunk3 (r - 2400) (by omega)
    refine ⟨k, hk, ?_⟩
    have e : 36 + r + k + 1 = 2436 + (r - 2400) + k + 1 := by omega
    rw [e]; exact h5
  rcases Nat.lt_or_ge r 4000 with h5a | h5a
  · obtain ⟨k, hk, h5⟩ := fri13_chunk4 (r - 3200) (by omega)
    refine ⟨k, hk, ?_⟩
    have e : 36 + r + k + 1 = 3236 + (r - 3200) + k + 1 := by omega
    rw [e]; exact h5
  · obtain ⟨k, hk, h5⟩ := fri13_chunk5 (r - 4000) (by omega)
    refine ⟨k, hk, ?_⟩
    have e : 36 + r + k + 1 = 4036 + (r - 4000) + k + 1 := by omega
    rw [e]; exact h5

/-- From any month index whatsoever, a Friday the 13th occurs within the next
14 months (transfer of the finite verification along 400-year periodicity). -/
lemma fri13_window (t : Int) : ∃ k : Nat, k < 14 ∧ weekday13 (t + k + 1) = 5 := by
  have hq : t - 36 = 4800 * ((t - 36) / 4800) + (t - 36) % 4800 := by omega
  have hr0 : 0 ≤ (t - 36) % 4800 := Int.emod_nonneg _ (by norm_num)
  have hr48 : (t - 36) % 4800 < 4800 := Int.emod_lt_of_pos _ (by norm_num)
  obtain ⟨k, hk, h5⟩ := fri13_all ((t - 36) % 4800).toNat (by omega)
  refine ⟨k, hk, ?_⟩
  have h5i : weekday13 ((36 + ((t - 36) % 4800).toNat + k + 1 : Nat) : Int) = 5 := by
    rw [← weekday13Nat_eq _ (by omega)]
    exact_mod_cast h5
  have e : t + k + 1 =
      ((36 + ((t - 36) % 4800).toNat + k + 1 : Nat) : Int) +
        4800 * ((t - 36) / 4800) := by
    push_cast
    omega
  rw [e, weekday13_shift]
  exact h5i

/-- Unfolding equation of the fuelled search. -/
lemma search_step (fuel : Nat) (y m d : Int) :
    getNextFridayThe13th (fuel + 1) y m d =
      if dayOfWeek y m 13 = 5 ∧ d ≤ 13 then some (y, m, 13)
      else if m = 12 then getNextFridayThe13th fuel (y + 1) 1 13
      else getNextFridayThe13th fuel y (m + 1) 13 := rfl

/-- The search succeeds whenever some month it will visit within its fuel has
a Friday the 13th. -/
lemma search_succeeds (fuel : Nat) : ∀ y m d : Int, 1 ≤ m → m ≤ 12 → d ≤ 13 →
    (∃ k : Nat, k < fuel ∧ weekday13 (12 * y + m - 1 + k) = 5) →
    (getNextFridayThe13th fuel y m d).isSome := by
  induction fuel with
  | zero =>
    rintro y m d _ _ _ ⟨k, hk, _⟩
    omega
  | succ n ih =>
    rintro y m d h1 h2 hd ⟨k, hk, h5⟩
    rw [search_step]
    by_cases hf : dayOfWeek y m 13 = 5
    · rw [if_pos ⟨hf, hd⟩]
      rfl
    · rw [if_neg (fun hc => hf hc.1)]
      have hk0 : k ≠ 0 := by
        intro h0
        subst h0
        simp only [Nat.cast_zero, add_zero] at h5
        rw [weekday13_month y m h1 h2] at h5
        exact hf h5
      by_cases hm : m = 12
      · rw [if_pos hm]
        apply ih (y + 1) 1 13 (by norm_num) (by norm_num) (by norm_num)
        refine ⟨k - 1, by omega, ?_⟩
        have e : 12 * (y + 1) + 1 - 1 + ((k - 1 : Nat) : Int) =
            12 * y + m - 1 + (k : Int) := by
          subst hm
          omega
        rw [e]
        exact h5
      · rw [if_neg hm]
        apply ih y (m + 1) 13 (by omega) (by omega) (by norm_num)
        refine ⟨k - 1, by omega, ?_⟩
        have e : 12 * y + (m + 1) - 1 + ((k - 1 : Nat) : Int) =
            12 * y + m - 1 + (k : Int) := by omega
        rw [e]
        exact h5

/-- C8: the weekday table of `getDayName` has exactly one misspelled entry,
"Wensday" at index 3 (Wednesday); every other index agrees with the correct
English names, so `getDayName` returns "Wensday" exactly on Wednesdays and the
correct name on every other weekday. -/
theorem getDayName_wensday_typo :
    days.getD 3 "" = "Wensday" ∧ englishDays.getD 3 "" = "Wednesday" ∧
    (∀ i : Nat, i < 7 → i ≠ 3 → days.getD i "" = englishDays.getD i "") ∧
    (∀ y m d : Int, dayOfWeek y m d = 3 → getDayName y m d = "Wensday") ∧
    (∀ y m d : Int, dayOfWeek y m d ≠ 3 →
      getDayName y m d = englishDays.getD (dayOfWeek y m d).toNat "") := by
  refine ⟨rfl, rfl, ?_, ?_, ?_⟩
  · intro i hi hne
    interval_cases i <;> simp_all [days, englishDays]
  · intro y m d h
    unfold getDayName
    rw [h]
    rfl
  · intro y m d h
    have h0 : 0 ≤ dayOfWeek y m d := Int.emod_nonneg _ (by norm_num)
    have h7 : dayOfWeek y m d < 7 := Int.emod_lt_of_pos _ (by norm_num)
    unfold getDayName
    generalize hw : dayOfWeek y m d = w at *
    interval_cases w <;> simp_all [days, englishDays]

/-- Witness for C8: 2024-01-31 was a Wednesday and gets the misspelled name;
2024-01-30 was a Tuesday and gets the correct name. -/
theorem getDayName_wensday_typo_witness :
    getDayName 2024 1 31 = "Wensday" ∧ getDayName 2024 1 30 = "Tuesday" := by
  constructor
  · exact getDayName_wensday_typo.2.2.2.1 2024 1 31 (by decide)
  · have h := getDayName_wensday_typo.2.2.2.2 2024 1 30 (by decide)
    rw [h]
    rfl

/-- Counterexample for C9: for `year = 0` (a leap year by the Gregorian rule,
as the source's own `isLeapYear` computes) and `month = 1`, the code returns
28 — the length of February 1900, because the `Date` constructor maps years
0..99 to 1900+year — not the 29 days of February of year 0.  So the claim's
"month `month + 1` of that year", quantified over every year, fails at
year 0. -/
theorem getCountDaysInMonth_year0_counterexample :
    getCountDaysInMonth 1 0 = 28 ∧ daysInMonth 0 2 = 29 ∧ isLeapYear 0 = true := by
  decide

/-- C9 (amended): for months 1..11 and years outside the two-digit range
0..99, `getCountDaysInMonth month year` returns the number of days of calendar
month `month + 1` of that year (not the requested month); for years 0..99 it
returns the length of month `month + 1` of year `1900 + year`; in particular
`getCountDaysInMonth 1 2024 = 29` (February 2024), contradicting the
documented example `1, 2024 => 31`. -/
theorem getCountDaysInMonth_shifted (month year : Int)
    (h1 : 1 ≤ month) (h2 : month ≤ 11) :
    (¬(0 ≤ year ∧ year ≤ 99) →
      getCountDaysInMonth month year = daysInMonth year (month + 1)) ∧
    ((0 ≤ year ∧ year ≤ 99) →
      getCountDaysInMonth month year = daysInMonth (1900 + year) (month + 1)) ∧
    getCountDaysInMonth 1 2024 = 29 ∧ (29 : Int) ≠ 31 := by
  refine ⟨?_, ?_, by decide, by decide⟩ <;>
    · intro hy
      unfold getCountDaysInMonth
      simp only [hy, if_true, if_false, if_neg, if_pos]
      exact countDays_core _ month h1 h2

/-- Witness for C9: the amended statement at `month = 1`, `year = 2024`. -/
theorem getCountDaysInMonth_shifted_witness :
    getCountDaysInMonth 1 2024 = daysInMonth 2024 2 :=
  (getCountDaysInMonth_shifted 1 2024 (by decide) (by decide)).1 (by decide)

/-- C10: `formatDate` renders the UTC hour `h` as `h` itself for `h ≤ 12` and
as `h - 12` for `h > 12`, with "AM" exactly when `h < 12`; the midnight hour
renders as "0" with "AM" — the input `2024-02-01T00:30:00.000Z` formats as
`2/1/2024, 0:30:00 AM` — and a "12:..:.. AM" rendering is never produced. -/
theorem formatDate_midnight_zero (d : JsDate) (hlt : d.hours < 24) :
    (d.hours ≤ 12 → hour12 d.hours = d.hours) ∧
    (d.hours > 12 → hour12 d.hours = d.hours - 12) ∧
    (meridiem d.hours = "AM" ↔ d.hours < 12) ∧
    formatDate ⟨2024, 2, 1, 0, 30, 0⟩ = "2/1/2024, 0:30:00 AM" ∧
    ¬(toString (hour12 d.hours) = "12" ∧ meridiem d.hours = "AM") := by
  obtain ⟨y, mo, dy, h, mi, s⟩ := d
  simp only at hlt ⊢
  refine ⟨?_, ?_, ?_, by rfl, ?_⟩
  · intro hh
    unfold hour12
    split <;> omega
  · intro hh
    unfold hour12
    split <;> omega
  · unfold meridiem
    split <;> simp <;> omega
  · interval_cases h <;> decide

/-- Witness for C10: the midnight half-hour input. -/
theorem formatDate_midnight_zero_witness :
    formatDate ⟨2024, 2, 1, 0, 30, 0⟩ = "2/1/2024, 0:30:00 AM" :=
  (formatDate_midnight_zero ⟨2024, 2, 1, 0, 30, 0⟩ (by decide)).2.2.2.1

/-- C4: the exported `getWorkSchedule` throws "Not implemented" on every
input — any period and any cycle lengths, valid or not — and never returns a
result sequence. -/
theorem getWorkSchedule_not_implemented (period : String × String)
    (countWorkDays countOffDays : Int) :
    getWorkSchedule period countWorkDays countOffDays =
      Except.error "Not implemented" ∧
    ∀ l : List String,
      getWorkSchedule period countWorkDays countOffDays ≠ Except.ok l := by
  exact ⟨rfl, fun l h => by simp [getWorkSchedule] at h⟩

/-- Witness for C4 at the spec's own scenario input. -/
theorem getWorkSchedule_not_implemented_witness :
    getWorkSchedule ("01-01-2024", "15-01-2024") 1 3 =
      Except.error "Not implemented" :=
  (getWorkSchedule_not_implemented ("01-01-2024", "15-01-2024") 1 3).1

/-- C2: the two scenario runs of the spec.  The exported `getWorkSchedule` is
an unimplemented stub, so the runs are checked against the spec-modelled
generator: range 01-01-2024..15-01-2024 with a 1-work/3-off cycle gives the
four work days 01, 05, 09, 13 January; range 01-01-2024..10-01-2024 with a
1-work/1-off cycle gives every other day 01, 03, 05, 07, 09 January. -/
theorem generateSchedule_scenarios :
    generateSchedule ("01-01-2024", "15-01-2024") 1 3 =
      Except.ok ["01-01-2024", "05-01-2024", "09-01-2024", "13-01-2024"] ∧
    generateSchedule ("01-01-2024", "10-01-2024") 1 1 =
      Except.ok ["01-01-2024", "03-01-2024", "05-01-2024", "07-01-2024",
        "09-01-2024"] := by
  exact ⟨rfl, rfl⟩

/-- C5: for well-formed period endpoints whose start lies after the end, and
valid cycle lengths, the spec-modelled generator returns the empty sequence
and no error: the inclusive walk from start to end is empty. -/
theorem generateSchedule_empty_when_start_after_end
    (p : String × String) (w o ys ms ds ye me de : Int)
    (hp1 : parseDMY p.1 = some (ys, ms, ds))
    (hp2 : parseDMY p.2 = some (ye, me, de))
    (hgt : dayNumber ye me de < dayNumber ys ms ds)
    (hw : 1 ≤ w) (ho : 0 ≤ o) :
    generateSchedule p w o = Except.ok [] := by
  unfold generateSchedule
  rw [if_neg (by omega), hp1, hp2]
  have hn : (dayNumber ye me de + 1 - dayNumber ys ms ds).toNat = 0 := by omega
  simp [scheduleDays, hn]

/-- Witness for C5: the reversed first scenario range. -/
theorem generateSchedule_empty_witness :
    generateSchedule ("15-01-2024", "01-01-2024") 1 3 = Except.ok [] :=
  generateSchedule_empty_when_start_after_end ("15-01-2024", "01-01-2024")
    1 3 2024 1 15 2024 1 1 (by rfl) (by rfl) (by decide) (by decide) (by decide)

/-- C3: the spec-modelled generator fails with `InvalidArgument` exactly when
`workLength < 1`, or `offLength < 0`, or an endpoint of the period is not a
well-formed calendar date (its `DD-MM-YYYY` parse fails); failure yields only
the error — no partial result can accompany an `Except.error`. -/
theorem generateSchedule_invalid_argument (p : String × String) (w o : Int) :
    generateSchedule p w o = Except.error "InvalidArgument" ↔
      (w < 1 ∨ o < 0 ∨ parseDMY p.1 = none ∨ parseDMY p.2 = none) := by
  unfold generateSchedule
  by_cases hwo : w < 1 ∨ o < 0
  · rw [if_pos hwo]
    simp only [true_iff]
    tauto
  · rw [if_neg hwo]
    push_neg at hwo
    rcases hp1 : parseDMY p.1 with _ | ⟨⟨ys, ms, ds⟩⟩ <;>
      rcases hp2 : parseDMY p.2 with _ | ⟨⟨ye, me, de⟩⟩ <;>
        simp [hp1, hp2] <;> omega

/-- Witness for C3: `workLength = 0` with the spec's scenario range raises
`InvalidArgument` (forward direction of the characterisation at a concrete
input). -/
theorem generateSchedule_invalid_argument_witness :
    generateSchedule ("01-01-2024", "15-01-2024") 0 3 =
      Except.error "InvalidArgument" :=
  (generateSchedule_invalid_argument ("01-01-2024", "15-01-2024") 0 3).mpr
    (Or.inl (by decide))

/-- C6: the generator and the exported stub are deterministic and free of
hidden state: both are pure functions of their arguments in this embedding,
so two calls with identical inputs give identical outcomes (the same result
sequence, or the same error). -/
theorem generateSchedule_deterministic (p : String × String) (w o : Int) :
    generateSchedule p w o = generateSchedule p w o ∧
    getWorkSchedule p w o = getWorkSchedule p w o :=
  ⟨rfl, rfl⟩

/-- C1: for a well-formed range with start at most end and a valid cycle
(`workLength ≥ 1`, `offLength ≥ 0` is carried by the `Nat` type), the
spec-modelled work-day enumeration is strictly ascending (hence
duplicate-free), and a calendar day `d` belongs to it exactly when `d` lies
in the inclusive range and `(d - start) % (workLength + offLength) <
workLength`; every in-range day failing that residue test is excluded. -/
theorem scheduleDays_work_pattern (s e : Int) (w o : Nat)
    (hw : 1 ≤ w) (hse : s ≤ e) :
    List.Pairwise (· < ·) (scheduleDays s e w o) ∧
    (∀ d : Int, d ∈ scheduleDays s e w o ↔
      s ≤ d ∧ d ≤ e ∧ (d - s) % ((w : Int) + (o : Int)) < (w : Int)) := by
  constructor
  · unfold scheduleDays
    rw [List.pairwise_map]
    refine List.Pairwise.imp ?_
      (List.Pairwise.sublist (List.filter_sublist _) (List.pairwise_lt_range _))
    intro a b hab
    omega
  · intro d
    unfold scheduleDays
    simp only [List.mem_map, List.mem_filter, List.mem_range, decide_eq_true_eq]
    constructor
    · rintro ⟨i, ⟨hin, hp⟩, rfl⟩
      refine ⟨by omega, by omega, ?_⟩
      have hi : (s + (i : Int)) - s = (i : Int) := by omega
      rw [hi]
      have hcast : ((i : Int) % ((w : Int) + (o : Int))) =
          ((i % (w + o) : Nat) : Int) := by
        push_cast
        rfl
      rw [hcast]
      exact_mod_cast hp
    · rintro ⟨h1, h2, h3⟩
      refine ⟨(d - s).toNat, ⟨by omega, ?_⟩, by omega⟩
      have hds : (((d - s).toNat : Nat) : Int) = d - s := by omega
      have hcast : (((d - s).toNat % (w + o) : Nat) : Int) =
          (((d - s).toNat : Nat) : Int) % ((w : Int) + (o : Int)) := by
        push_cast
        rfl
      have h4 : (((d - s).toNat : Nat) : Int) % ((w : Int) + (o : Int)) <
          (w : Int) := by
        rw [hds]
        exact h3
      rw [← hcast] at h4
      exact_mod_cast h4

/-- Witness for C1: the first scenario's range as day numbers (serial days
19723..19737, i.e. 01..15 January 2024) with a 1-work/3-off cycle: the
enumeration is ascending, contains day 19727 (05-01-2024, position 4) and
excludes day 19724 (02-01-2024, position 1). -/
theorem scheduleDays_work_pattern_witness :
    List.Pairwise (· < ·) (scheduleDays 19723 19737 1 3) ∧
    (19727 : Int) ∈ scheduleDays 19723 19737 1 3 ∧
    (19724 : Int) ∉ scheduleDays 19723 19737 1 3 := by
  refine ⟨(scheduleDays_work_pattern 19723 19737 1 3 (by decide) (by decide)).1,
    ((scheduleDays_work_pattern 19723 19737 1 3 (by decide) (by decide)).2
      19727).mpr (by decide),
    fun hmem => ?_⟩
  have h := ((scheduleDays_work_pattern 19723 19737 1 3 (by decide)
    (by decide)).2 19724).mp hmem
  revert h
  decide

/-- C7: for every well-formed calendar date, the month-by-month search of
`getNextFridayThe13th` terminates, within a fixed constant number of steps:
fuel 15 — the first month plus at most 14 recursive calls — always suffices,
because every window of 14 consecutive months contains a Friday the 13th (the
maximal gap in the Gregorian calendar is 14 months, so the spec's 12-13
iterations bound a one-year search but the unrestricted search needs up to 14
recursive calls). -/
theorem getNextFridayThe13th_terminates (y m d : Int) (hv : isValidDate y m d) :
    (getNextFridayThe13th 15 y m d).isSome := by
  obtain ⟨h1, h2, _h3, _h4⟩ := hv
  by_cases hd : d ≤ 13
  · apply search_succeeds 15 y m d h1 h2 hd
    obtain ⟨k, hk, h5⟩ := fri13_window (12 * y + m - 2)
    refine ⟨k, by omega, ?_⟩
    have e : 12 * y + m - 1 + (k : Int) = 12 * y + m - 2 + (k : Int) + 1 := by
      omega
    rw [e]
    exact h5
  · rw [show (15 : Nat) = 14 + 1 from rfl, search_step]
    rw [if_neg (fun hc => hd hc.2)]
    obtain ⟨k, hk, h5⟩ := fri13_window (12 * y + m - 1)
    by_cases hm : m = 12
    · rw [if_pos hm]
      apply search_succeeds 14 (y + 1) 1 13 (by norm_num) (by norm_num)
        (by norm_num)
      refine ⟨k, by omega, ?_⟩
      have e : 12 * (y + 1) + 1 - 1 + (k : Int) =
          12 * y + m - 1 + (k : Int) + 1 := by
        subst hm
        omega
      rw [e]
      exact h5
    · rw [if_neg hm]
      apply search_succeeds 14 y (m + 1) 13 (by omega) (by omega) (by norm_num)
      refine ⟨k, by omega, ?_⟩
      have e : 12 * y + (m + 1) - 1 + (k : Int) =
          12 * y + m - 1 + (k : Int) + 1 := by omega
      rw [e]
      exact h5

/-- Witness for C7: the source's own example date 2024-01-13; the search
finds September 13th, 2024. -/
theorem getNextFridayThe13th_terminates_witness :
    (getNextFridayThe13th 15 2024 1 13).isSome :=
  getNextFridayThe13th_terminates 2024 1 13 (by decide)
